import Mathlib

/-!
Shallow embedding of the time-splatting training engine
(src/time-splatting/train.py) together with proofs about the claims of the
accompanying specification.  Real-valued tensor entries are modelled as real
numbers; per-primitive arrays of temporal parameters become functions
`Fin d → ℝ` for one primitive (the rasterizer broadcasts over primitives, so
one primitive at a time is fully general).
-/

noncomputable section

namespace TimeSplatting

/-! ## Temporal kernel (rasterize_splats, train.py lines 460-502) -/

/-- Logistic sigmoid; torch.sigmoid applied to the raw opacities in
rasterize_splats (train.py line 477). -/
def sigmoid (x : ℝ) : ℝ := 1 / (1 + Real.exp (-x))

/-- train.py line 484: time_delta = times - time_means, one row per primitive. -/
def code_time_delta (d : ℕ) (timeMean t : Fin d → ℝ) : Fin d → ℝ :=
  fun j => t j - timeMean j

/-- train.py line 497: the Cholesky coupling block is commented out, so
time_anisotropic is simply time_delta. -/
def code_time_anisotropic (d : ℕ) (timeMean t : Fin d → ℝ) : Fin d → ℝ :=
  code_time_delta d timeMean t

/-- train.py line 498: time_delta = time_anisotropic / exp(time_scales). -/
def code_norm_delta (d : ℕ) (timeMean logTimeScale t : Fin d → ℝ) : Fin d → ℝ :=
  fun j => code_time_anisotropic d timeMean t j / Real.exp (logTimeScale j)

/-- train.py line 500: time_alpha = exp(-0.5 * (time_delta * time_delta).sum()). -/
def code_time_alpha (d : ℕ) (timeMean logTimeScale t : Fin d → ℝ) : ℝ :=
  Real.exp (-0.5 * ∑ j, code_norm_delta d timeMean logTimeScale t j *
    code_norm_delta d timeMean logTimeScale t j)

/-- train.py lines 477 and 502: the opacity handed to the rasterization call,
opacities = sigmoid(raw) * time_alpha. -/
def code_effective_opacity (d : ℕ) (logitOpacity : ℝ)
    (timeMean logTimeScale t : Fin d → ℝ) : ℝ :=
  sigmoid logitOpacity * code_time_alpha d timeMean logTimeScale t

/-- The formula of the specification (section 4.1), written with squares as the
spec writes it. -/
def spec_time_alpha (d : ℕ) (timeMean logTimeScale t : Fin d → ℝ) : ℝ :=
  Real.exp (-0.5 * ∑ j, ((t j - timeMean j) / Real.exp (logTimeScale j)) ^ 2)

/-- Normalized absolute deviation of one temporal coordinate. -/
def norm_dev (d : ℕ) (timeMean logTimeScale t : Fin d → ℝ) (j : Fin d) : ℝ :=
  |t j - timeMean j| / Real.exp (logTimeScale j)

lemma sigmoid_pos (x : ℝ) : 0 < sigmoid x := by
  unfold sigmoid
  positivity

lemma norm_dev_nonneg (d : ℕ) (μ s t : Fin d → ℝ) (j : Fin d) :
    0 ≤ norm_dev d μ s t j := by
  unfold norm_dev
  positivity

lemma code_time_alpha_eq_spec (d : ℕ) (μ s t : Fin d → ℝ) :
    code_time_alpha d μ s t = spec_time_alpha d μ s t := by
  unfold code_time_alpha spec_time_alpha code_norm_delta code_time_anisotropic
    code_time_delta
  congr 1
  congr 1
  apply Finset.sum_congr rfl
  intro j _
  exact (pow_two _).symm

lemma code_time_alpha_eq_norm_dev (d : ℕ) (μ s t : Fin d → ℝ) :
    code_time_alpha d μ s t = Real.exp (-0.5 * ∑ j, norm_dev d μ s t j ^ 2) := by
  unfold code_time_alpha code_norm_delta code_time_anisotropic code_time_delta
    norm_dev
  congr 1
  congr 1
  apply Finset.sum_congr rfl
  intro j _
  rw [← pow_two, ← sq_abs, abs_div, abs_of_pos (Real.exp_pos _)]

lemma code_time_alpha_eq_one_iff (d : ℕ) (μ s t : Fin d → ℝ) :
    code_time_alpha d μ s t = 1 ↔ t = μ := by
  rw [code_time_alpha_eq_norm_dev, Real.exp_eq_one_iff]
  constructor
  · intro h
    have hS : ∑ j, norm_dev d μ s t j ^ 2 = 0 := by
      rcases mul_eq_zero.mp h with h0 | hS
      · norm_num at h0
      · exact hS
    funext j
    have hj := (Finset.sum_eq_zero_iff_of_nonneg
      (fun i _ => by positivity)).mp hS j (Finset.mem_univ j)
    have hdev : norm_dev d μ s t j = 0 := by
      exact pow_eq_zero_iff (two_ne_zero) |>.mp hj
    unfold norm_dev at hdev
    rcases div_eq_zero_iff.mp hdev with h1 | h2
    · have := abs_eq_zero.mp h1
      linarith [sub_eq_zero.mp this]
    · exact absurd h2 (Real.exp_pos _).ne'
  · intro h
    subst h
    simp [norm_dev]

/-- C1: the opacity handed to the rasterizer equals
sigmoid(logitOpacity) * exp(-0.5 * Σ_j ((t_j - timeMean_j)/exp(logTimeScale_j))^2);
it equals sigmoid(logitOpacity) exactly when t = timeMean, and it strictly
decreases when one coordinate normalized absolute deviation grows while the
other coordinates deviations are held fixed. -/
theorem C1_effective_opacity (d : ℕ) (o : ℝ) (μ s t t2 : Fin d → ℝ) (k : Fin d)
    (hk : norm_dev d μ s t k < norm_dev d μ s t2 k)
    (ho : ∀ j, j ≠ k → norm_dev d μ s t2 j = norm_dev d μ s t j) :
    code_effective_opacity d o μ s t = sigmoid o * spec_time_alpha d μ s t
    ∧ (code_effective_opacity d o μ s t = sigmoid o ↔ t = μ)
    ∧ code_effective_opacity d o μ s t2 < code_effective_opacity d o μ s t := by
  refine ⟨?_, ?_, ?_⟩
  · unfold code_effective_opacity
    rw [code_time_alpha_eq_spec]
  · unfold code_effective_opacity
    constructor
    · intro h
      rcases mul_right_eq_self₀.mp h with h1 | h0
      · exact (code_time_alpha_eq_one_iff d μ s t).mp h1
      · exact absurd h0 (sigmoid_pos o).ne'
    · intro ht
      rw [(code_time_alpha_eq_one_iff d μ s t).mpr ht, mul_one]
  · unfold code_effective_opacity
    rw [code_time_alpha_eq_norm_dev, code_time_alpha_eq_norm_dev]
    refine mul_lt_mul_of_pos_left ?_ (sigmoid_pos o)
    rw [Real.exp_lt_exp]
    refine mul_lt_mul_of_neg_left ?_ (by norm_num : (-0.5 : ℝ) < 0)
    refine Finset.sum_lt_sum ?_ ⟨k, Finset.mem_univ k, ?_⟩
    · intro j _
      rcases eq_or_ne j k with rfl | hj
      · exact le_of_lt (pow_lt_pow_left₀ hk (norm_dev_nonneg d μ s t j) two_ne_zero)
      · rw [ho j hj]
    · exact pow_lt_pow_left₀ hk (norm_dev_nonneg d μ s t k) two_ne_zero

/-- Witness for C1: one primitive with d = 1, timeMean = 0, logTimeScale = 0,
compared at query times 0 and 1. -/
theorem C1_effective_opacity_witness :
    norm_dev 1 (fun _ => 0) (fun _ => 0) (fun _ => 0) 0 <
        norm_dev 1 (fun _ => 0) (fun _ => 0) (fun _ => 1) 0
    ∧ code_effective_opacity 1 0 (fun _ => 0) (fun _ => 0) (fun _ => 1) <
        code_effective_opacity 1 0 (fun _ => 0) (fun _ => 0) (fun _ => 0) := by
  have hk : norm_dev 1 (fun _ => 0) (fun _ => 0) (fun _ => 0) 0 <
      norm_dev 1 (fun _ => 0) (fun _ => 0) (fun _ => 1) 0 := by
    simp [norm_dev]
  exact ⟨hk, (C1_effective_opacity 1 0 (fun _ => 0) (fun _ => 0) (fun _ => 0)
    (fun _ => 1) 0 hk (fun j hj => absurd (Subsingleton.elim j 0) hj)).2.2⟩

/-! ## Learning-rate schedules (train.py lines 557-579, 840-841) -/

/-- Per-step decay factor of the means schedule: gamma = 0.01 ^ (1/max_steps)
(train.py line 560). -/
def means_gamma (max_steps : ℕ) : ℝ := (0.01 : ℝ) ^ ((1 : ℝ) / (max_steps : ℝ))

/-- Value of an ExponentialLR schedule after k advances. -/
def exp_lr (lr0 gamma : ℝ) (k : ℕ) : ℝ := lr0 * gamma ^ k

/-- Closed form of the LinearLR warm-up factor after k advances
(start_factor=0.01, total_iters=1000 in train.py lines 569-573). -/
def linear_warmup_factor (start_factor : ℝ) (total_iters : ℕ) (k : ℕ) : ℝ :=
  start_factor + (1 - start_factor) * ((min k total_iters : ℕ) : ℝ) / (total_iters : ℝ)

/-- Value of the ChainedScheduler (LinearLR then ExponentialLR) of the
bilateral-grid optimizer after k advances (train.py lines 566-579): both member
schedules advance every step, so their factors multiply. -/
def chained_bil_lr (lr0 : ℝ) (max_steps : ℕ) (k : ℕ) : ℝ :=
  lr0 * linear_warmup_factor 0.01 1000 k * means_gamma max_steps ^ k

/-- C9: the means learning-rate schedule is exponential with per-step factor
0.01^(1/max_steps) and reaches exactly 1 percent of the initial value after
max_steps advances; the compositing-grid schedule is a linear warm-up over a
fixed 1000 steps starting at factor 0.01, chained with the same exponential
decay (so after warm-up it coincides with the pure exponential schedule). -/
theorem C9_lr_schedules (lr0 blr0 : ℝ) (max_steps : ℕ) (h : 0 < max_steps) :
    exp_lr lr0 (means_gamma max_steps) max_steps = 0.01 * lr0
    ∧ (∀ k, exp_lr lr0 (means_gamma max_steps) (k + 1) =
        means_gamma max_steps * exp_lr lr0 (means_gamma max_steps) k)
    ∧ chained_bil_lr blr0 max_steps 0 = 0.01 * blr0
    ∧ (∀ k, 1000 ≤ k →
        chained_bil_lr blr0 max_steps k = exp_lr blr0 (means_gamma max_steps) k) := by
  have hms : ((max_steps : ℝ)) ≠ 0 := Nat.cast_ne_zero.mpr h.ne'
  refine ⟨?_, ?_, ?_, ?_⟩
  · unfold exp_lr means_gamma
    rw [← Real.rpow_natCast ((0.01 : ℝ) ^ ((1 : ℝ) / (max_steps : ℝ))) max_steps,
      ← Real.rpow_mul (by norm_num : (0 : ℝ) ≤ 0.01), one_div,
      inv_mul_cancel₀ hms, Real.rpow_one, mul_comm]
  · intro k
    unfold exp_lr
    rw [pow_succ]
    ring
  · unfold chained_bil_lr linear_warmup_factor
    norm_num
    ring
  · intro k hk
    unfold chained_bil_lr linear_warmup_factor exp_lr
    rw [min_eq_right hk]
    norm_num

/-- Witness for C9 at max_steps = 1. -/
theorem C9_lr_schedules_witness :
    0 < 1 ∧ exp_lr 2 (means_gamma 1) 1 = 0.01 * 2 :=
  ⟨Nat.one_pos, (C9_lr_schedules 2 3 1 Nat.one_pos).1⟩

/-! ## Shading compositing in train versus eval
(train.py lines 654-668 and 944-961) -/

/-- Training composition (train.py line 668): the albedo render is multiplied
elementwise by the shading render, which was rasterized over a white (1.0)
background (train.py line 666). -/
def train_shading_composite (albedo shading_colors : ℝ) : ℝ :=
  albedo * shading_colors

/-- Evaluation composition (train.py lines 959-961): the same white-background
shading render additionally receives bkgd * (1 - shading_alphas) with
bkgd = 1 before the multiplication. -/
def eval_shading_composite (albedo shading_colors shading_alphas : ℝ) : ℝ :=
  albedo * (shading_colors + 1 * (1 - shading_alphas))

/-- C10: the training step and the evaluation step compose the shading render
differently: evaluation adds a second white-background term
shading_colors + 1 * (1 - shading_alphas) before multiplying, so the two
compositions differ by albedo * (1 - shading_alphas); at a concrete pixel with
albedo 1, accumulated shading color 1 and shading alpha 0 < 1 the two paths
produce the different values 1 and 2. -/
theorem C10_train_eval_compositing_differ :
    (∀ albedo sc sa : ℝ,
        eval_shading_composite albedo sc sa - train_shading_composite albedo sc
          = albedo * (1 - sa))
    ∧ (0 : ℝ) < 1
    ∧ train_shading_composite 1 1 = 1
    ∧ eval_shading_composite 1 1 0 = 2
    ∧ train_shading_composite 1 1 ≠ eval_shading_composite 1 1 0 := by
  refine ⟨?_, by norm_num, ?_, ?_, ?_⟩
  · intro albedo sc sa
    unfold eval_shading_composite train_shading_composite
    ring
  · unfold train_shading_composite
    norm_num
  · unfold eval_shading_composite
    norm_num
  · unfold train_shading_composite eval_shading_composite
    norm_num

/-! ## Parameter groups (create_splats_with_optimizers, train.py lines 173-266) -/

/-- Names of the per-primitive parameter groups, in insertion order
(train.py lines 231-247): the albedo population is created with
use_shading=False (train.py line 318) and has seven groups; the shading
population is created with use_shading=True (train.py line 340) and
additionally owns the time_anisos group (train.py line 247). -/
def paramNames (use_shading : Bool) : List String :=
  ["means", "scales", "quats", "opacities", "times", "time_scales", "colors"]
    ++ (if use_shading then ["time_anisos"] else [])

/-- One optimizer is created per parameter group, keyed by the group name
(train.py lines 258-265). -/
def optimizerNames (use_shading : Bool) : List String := paramNames use_shading

/-! ## The disabled anisotropic coupling
(splat_cholesky, train.py lines 445-458, and the commented-out block at
lines 486-496) -/

/-- splat_cholesky (train.py lines 445-458): the unitriangular matrix L whose
strictly-lower-triangular entries come from the time_anisos parameters (here
indexed directly by row and column). -/
def splat_cholesky (d : ℕ) (time_anisos : Fin d → Fin d → ℝ) :
    Fin d → Fin d → ℝ :=
  fun i j => if i = j then 1 else if j < i then time_anisos i j else 0

/-- The coupled time deltas that the commented-out block (train.py lines
486-496) would compute: transpose(L) applied to time_delta. -/
def disabled_aniso_delta (d : ℕ) (time_anisos : Fin d → Fin d → ℝ)
    (timeMean t : Fin d → ℝ) : Fin d → ℝ :=
  fun i => ∑ j, splat_cholesky d time_anisos j i * code_time_delta d timeMean t j

/-! ## Density-control strategy variants and their dispatch
(Runner init, train.py lines 351-372) -/

/-- The two mutually exclusive density-control variants of the configuration
(train.py line 102: Union of DefaultStrategy and MCMCStrategy). -/
inductive Strategy where
  | defaultStrategy
  | mcmcStrategy
deriving DecidableEq

/-- Shape of the initialize_state call made for a controller: the
DefaultStrategy branch passes scene_scale, the MCMCStrategy branch passes no
arguments. -/
inductive InitStateCall where
  | initWithSceneScale (scene_scale : ℝ)
  | initNoArgs

/-- Dispatch for the primary controller state (train.py lines 351-358):
branches on isinstance of cfg.strategy. -/
def primary_init_dispatch (strategy : Strategy) (scene_scale : ℝ) :
    InitStateCall :=
  match strategy with
  | Strategy.defaultStrategy => InitStateCall.initWithSceneScale scene_scale
  | Strategy.mcmcStrategy => InitStateCall.initNoArgs

/-- Dispatch for the shading controller state (train.py lines 360-372): the
receiver of the call is cfg.shading_strategy, but the isinstance tests at
lines 361 and 367 read cfg.strategy, so the branch is selected by the primary
variant; the shading_strategy argument is never consulted. -/
def shading_init_dispatch (strategy shading_strategy : Strategy)
    (scene_scale : ℝ) : InitStateCall :=
  match strategy with
  | Strategy.defaultStrategy => InitStateCall.initWithSceneScale scene_scale
  | Strategy.mcmcStrategy => InitStateCall.initNoArgs

/-! ## Configuration (train.py lines 40-152), with the fields the claims
depend on; default values are the source defaults. -/

structure Config where
  use_shading : Bool := true
  packed : Bool := false
  sparse_grad : Bool := false
  visible_adam : Bool := false
  app_opt : Bool := false
  use_bilagrid : Bool := true
  compression : Option String := none
  strategy : Strategy := Strategy.mcmcStrategy
  shading_strategy : Strategy := Strategy.mcmcStrategy
  max_steps : Int := 30000
  save_steps : List Int := []
  eval_steps : List Int := []
deriving DecidableEq

/-! ## Compression-codec check at construction (train.py lines 374-380) -/

inductive CompressionState where
  | noCompression
  | pngCompression
deriving DecidableEq

/-- Runner construction, compression part (train.py lines 374-380): None means
no compression, "png" selects PngCompression, anything else raises ValueError
before training starts. -/
def init_compression (compression : Option String) :
    Except String CompressionState :=
  match compression with
  | none => Except.ok CompressionState.noCompression
  | some c =>
      if c = "png" then Except.ok CompressionState.pngCompression
      else Except.error ("Unknown compression strategy: " ++ c)

/-! ## Visibility mask for visible-adam mode (train.py lines 810-839) -/

/-- Unpacked-mode visibility mask (train.py line 818):
(radii > 0).all(dim -1).any(dim 0), radii indexed camera, primitive,
screen dimension. -/
def visibility_mask_unpacked (C N nd : ℕ)
    (radii : Fin C → Fin N → Fin nd → Int) : Fin N → Bool :=
  fun i => decide (∃ c, ∀ k2, 0 < radii c i k2)

/-- Packed-mode visibility mask (train.py lines 813-816): a zero mask with
ones scattered at the gaussian_ids reported by the rasterization. -/
def visibility_mask_packed (N : ℕ) (gaussian_ids : List (Fin N)) :
    Fin N → Bool :=
  fun i => gaussian_ids.contains i

/-- The single mask computed in the training step (train.py lines 810-818),
always from the albedo population statistics info. -/
def train_visibility_mask (packed : Bool) (C N nd : ℕ)
    (albedo_gaussian_ids : List (Fin N))
    (albedo_radii : Fin C → Fin N → Fin nd → Int) : Fin N → Bool :=
  if packed then visibility_mask_packed N albedo_gaussian_ids
  else visibility_mask_unpacked C N nd albedo_radii

/-- The mask passed to every shading-population optimizer step (train.py line
836): it is the very mask of train.py lines 810-818, computed from the albedo
info; the shading statistics are not consulted. -/
def shading_step_mask (packed : Bool) (C N nd : ℕ)
    (albedo_gaussian_ids : List (Fin N))
    (albedo_radii : Fin C → Fin N → Fin nd → Int)
    (shading_gaussian_ids : List (Fin N))
    (shading_radii : Fin C → Fin N → Fin nd → Int) : Fin N → Bool :=
  train_visibility_mask packed C N nd albedo_gaussian_ids albedo_radii

/-! ## Checkpoint record (train.py lines 776-793) -/

inductive CkptValue where
  | stepIndex (n : Int)
  | params (names : List String)
  | appParams
deriving DecidableEq

/-- The record serialized at a save step (train.py lines 790-793):
data = step, splats state_dict (the albedo ParameterDict, so the albedo group
names), and app_module when app_opt; nothing of the shading population is
stored, whatever use_shading is. -/
def checkpoint_data (stepIdx : Int) (app_opt : Bool) (use_shading : Bool) :
    List (String × CkptValue) :=
  [("step", CkptValue.stepIndex stepIdx), ("splats", CkptValue.params (paramNames false))]
    ++ (if app_opt then [("app_module", CkptValue.appParams)] else [])

/-- Save condition (train.py line 777): step among save_steps minus one, or
the final step. -/
def save_now (save_steps : List Int) (max_steps : Int) (step : ℕ) : Bool :=
  ((save_steps.map (fun i => i - 1)).contains ((step : Int)))
    || ((step : Int) == max_steps - 1)

/-- Eval condition (train.py line 889): step among eval_steps minus one. -/
def eval_now (eval_steps : List Int) (step : ℕ) : Bool :=
  (eval_steps.map (fun i => i - 1)).contains ((step : Int))

/-! ## The per-step event trace of the training loop
(Runner.train, train.py lines 546-908) -/

/-- Observable actions of one training iteration, in program order. -/
inductive Event where
  | preBackward
  | shadPreBackward
  | backward
  | saveCheckpoint
  | abortInit (msg : String)
  | abortAssert (msg : String)
  | sparseConvert
  | optStep (gname : String)
  | optStepMasked (gname : String)
  | zeroGrad (gname : String)
  | appStep (i : ℕ)
  | appZero (i : ℕ)
  | bilStep
  | bilZero
  | shadOptStep (gname : String)
  | shadOptStepMasked (gname : String)
  | shadZeroGrad (gname : String)
  | schedStep (i : ℕ)
  | postBackwardDefault
  | postBackwardMCMC (lr : ℝ)
  | shadPostBackwardDefault
  | shadPostBackwardMCMC (lr : ℝ)
  | evalStep
  | renderTraj
  | compressStep

/-- Message of the assertion at train.py line 797. -/
def sparse_assert_msg : String := "Sparse gradients only work with packed mode."

/-- Checkpoint block (train.py lines 776-793). -/
def saveBlock (cfg : Config) (step : ℕ) : List Event :=
  if save_now cfg.save_steps cfg.max_steps step then [Event.saveCheckpoint] else []

/-- Events before the optimizer section: strategy.step_pre_backward calls
(train.py lines 687-702), loss backward (line 756), checkpoint save
(lines 776-793). -/
def step_head (cfg : Config) (step : ℕ) : List Event :=
  [Event.preBackward]
    ++ (if cfg.use_shading then [Event.shadPreBackward] else [])
    ++ [Event.backward]
    ++ saveBlock cfg step

/-- Sparse-gradient conversion (train.py lines 795-808), reached only when the
assertion at line 797 holds. -/
def sparseConvBlock (cfg : Config) : List Event :=
  if cfg.sparse_grad then [Event.sparseConvert] else []

/-- Albedo optimizer loop (train.py lines 821-826): per group in insertion
order, step (masked in visible-adam mode) then zero_grad. -/
def optBlock (va : Bool) : List String → List Event
  | [] => []
  | gname :: rest =>
      (if va then Event.optStepMasked gname else Event.optStep gname)
        :: Event.zeroGrad gname :: optBlock va rest

/-- Appearance optimizers loop (train.py lines 827-829), two optimizers. -/
def appBlock (cfg : Config) : List Event :=
  if cfg.app_opt then
    [Event.appStep 0, Event.appZero 0, Event.appStep 1, Event.appZero 1]
  else []

/-- Bilateral-grid optimizer loop (train.py lines 830-832). -/
def bilBlock (cfg : Config) : List Event :=
  if cfg.use_bilagrid then [Event.bilStep, Event.bilZero] else []

/-- Shading optimizer loop (train.py lines 833-839). -/
def shadOptBlock (va : Bool) : List String → List Event
  | [] => []
  | gname :: rest =>
      (if va then Event.shadOptStepMasked gname else Event.shadOptStep gname)
        :: Event.shadZeroGrad gname :: shadOptBlock va rest

/-- Shading optimizer section (runs only with use_shading). -/
def shadBlock (cfg : Config) : List Event :=
  if cfg.use_shading then shadOptBlock cfg.visible_adam (paramNames true) else []

/-- Scheduler loop (train.py lines 840-841): scheduler 0 is the means
ExponentialLR, scheduler 1 the bilateral-grid ChainedScheduler when present
(lines 557-579). -/
def schedBlock (cfg : Config) : List Event :=
  Event.schedStep 0 :: (if cfg.use_bilagrid then [Event.schedStep 1] else [])

/-- Primary strategy step_post_backward dispatch (train.py lines 844-863); in
the MCMC branch the lr argument is schedulers[0].get_last_lr()[0], the means
schedule value after its step+1 advances. -/
def postPrimaryBlock (cfg : Config) (meansLr0 gamma : ℝ) (step : ℕ) :
    List Event :=
  match cfg.strategy with
  | Strategy.defaultStrategy => [Event.postBackwardDefault]
  | Strategy.mcmcStrategy =>
      [Event.postBackwardMCMC (exp_lr meansLr0 gamma (step + 1))]

/-- Shading strategy step_post_backward dispatch (train.py lines 865-886),
with the same lr expression at line 883. -/
def postShadBlock (cfg : Config) (meansLr0 gamma : ℝ) (step : ℕ) : List Event :=
  if cfg.use_shading then
    match cfg.shading_strategy with
    | Strategy.defaultStrategy => [Event.shadPostBackwardDefault]
    | Strategy.mcmcStrategy =>
        [Event.shadPostBackwardMCMC (exp_lr meansLr0 gamma (step + 1))]
  else []

/-- Periodic eval, trajectory render and compression (train.py lines 888-895). -/
def tailBlock (cfg : Config) (step : ℕ) : List Event :=
  (if eval_now cfg.eval_steps step then [Event.evalStep, Event.renderTraj] else [])
    ++ (if cfg.compression.isSome && eval_now cfg.eval_steps step then
        [Event.compressStep] else [])

/-- All events after the sparse-conversion point of one iteration. -/
def step_body (cfg : Config) (meansLr0 gamma : ℝ) (step : ℕ) : List Event :=
  sparseConvBlock cfg
    ++ optBlock cfg.visible_adam (paramNames false)
    ++ appBlock cfg
    ++ bilBlock cfg
    ++ shadBlock cfg
    ++ schedBlock cfg
    ++ postPrimaryBlock cfg meansLr0 gamma step
    ++ postShadBlock cfg meansLr0 gamma step
    ++ tailBlock cfg step

/-- One full training iteration (train.py lines 594-908): if sparse_grad is
set without packed mode, the assertion at line 797 aborts the step right
after the checkpoint block. -/
def step_trace (cfg : Config) (meansLr0 gamma : ℝ) (step : ℕ) : List Event :=
  step_head cfg step
    ++ (if cfg.sparse_grad && !cfg.packed then [Event.abortAssert sparse_assert_msg]
        else step_body cfg meansLr0 gamma step)

/-- Number of loop iterations (train.py lines 554, 593). -/
def max_steps_nat (cfg : Config) : ℕ := cfg.max_steps.toNat

/-- Training part of the run, entered only when construction succeeded: a
failed sparse-gradient assertion ends the run inside its first iteration. -/
def run_trace_aux (cfg : Config) (meansLr0 gamma : ℝ) :
    Except String CompressionState → List Event
  | Except.error e => [Event.abortInit e]
  | Except.ok _ =>
      if cfg.sparse_grad && !cfg.packed then
        if max_steps_nat cfg = 0 then [] else step_trace cfg meansLr0 gamma 0
      else (List.range (max_steps_nat cfg)).flatMap (step_trace cfg meansLr0 gamma)

/-- The whole run: Runner construction (whose compression check can abort
before any step, train.py lines 374-380) followed by the training loop. -/
def run_trace (cfg : Config) (meansLr0 gamma : ℝ) : List Event :=
  run_trace_aux cfg meansLr0 gamma (init_compression cfg.compression)

/-! ## Event classification and block facts -/

def is_post_backward : Event → Bool
  | Event.postBackwardDefault => true
  | Event.postBackwardMCMC _ => true
  | _ => false

def is_opt_or_sched : Event → Bool
  | Event.optStep _ => true
  | Event.optStepMasked _ => true
  | Event.zeroGrad _ => true
  | Event.appStep _ => true
  | Event.appZero _ => true
  | Event.bilStep => true
  | Event.bilZero => true
  | Event.shadOptStep _ => true
  | Event.shadOptStepMasked _ => true
  | Event.shadZeroGrad _ => true
  | Event.schedStep _ => true
  | _ => false

def is_abort_init : Event → Bool
  | Event.abortInit _ => true
  | _ => false

def is_abort_assert : Event → Bool
  | Event.abortAssert _ => true
  | _ => false

lemma forall_mem_ite_nil {α : Type} {P : α → Prop} {c : Prop} [Decidable c]
    {l : List α} (hl : ∀ e ∈ l, P e) : ∀ e ∈ (if c then l else []), P e := by
  intro e he
  split at he
  · exact hl e he
  · cases he

lemma step_head_events (cfg : Config) (step : ℕ) :
    ∀ e ∈ step_head cfg step,
      is_post_backward e = false ∧ is_abort_init e = false
        ∧ is_abort_assert e = false := by
  unfold step_head saveBlock
  refine List.forall_mem_append.mpr ⟨List.forall_mem_append.mpr
    ⟨List.forall_mem_append.mpr ⟨?_, ?_⟩, ?_⟩, ?_⟩
  · exact List.forall_mem_singleton.mpr ⟨rfl, rfl, rfl⟩
  · exact forall_mem_ite_nil (List.forall_mem_singleton.mpr ⟨rfl, rfl, rfl⟩)
  · exact List.forall_mem_singleton.mpr ⟨rfl, rfl, rfl⟩
  · exact forall_mem_ite_nil (List.forall_mem_singleton.mpr ⟨rfl, rfl, rfl⟩)

lemma sparseConvBlock_events (cfg : Config) :
    ∀ e ∈ sparseConvBlock cfg,
      is_post_backward e = false ∧ is_abort_init e = false
        ∧ is_abort_assert e = false := by
  unfold sparseConvBlock
  exact forall_mem_ite_nil (List.forall_mem_singleton.mpr ⟨rfl, rfl, rfl⟩)

lemma optBlock_events (va : Bool) (gs : List String) :
    ∀ e ∈ optBlock va gs,
      is_post_backward e = false ∧ is_abort_init e = false
        ∧ is_abort_assert e = false := by
  induction gs with
  | nil => intro e he; cases he
  | cons g rest ih =>
      intro e he
      unfold optBlock at he
      rcases List.mem_cons.mp he with rfl | he
      · cases va <;> exact ⟨rfl, rfl, rfl⟩
      · rcases List.mem_cons.mp he with rfl | he
        · exact ⟨rfl, rfl, rfl⟩
        · exact ih e he

lemma appBlock_events (cfg : Config) :
    ∀ e ∈ appBlock cfg,
      is_post_backward e = false ∧ is_abort_init e = false
        ∧ is_abort_assert e = false := by
  unfold appBlock
  refine forall_mem_ite_nil ?_
  refine List.forall_mem_cons.mpr ⟨⟨rfl, rfl, rfl⟩, ?_⟩
  refine List.forall_mem_cons.mpr ⟨⟨rfl, rfl, rfl⟩, ?_⟩
  refine List.forall_mem_cons.mpr ⟨⟨rfl, rfl, rfl⟩, ?_⟩
  exact List.forall_mem_singleton.mpr ⟨rfl, rfl, rfl⟩

lemma bilBlock_events (cfg : Config) :
    ∀ e ∈ bilBlock cfg,
      is_post_backward e = false ∧ is_abort_init e = false
        ∧ is_abort_assert e = false := by
  unfold bilBlock
  refine forall_mem_ite_nil ?_
  exact List.forall_mem_cons.mpr ⟨⟨rfl, rfl, rfl⟩,
    List.forall_mem_singleton.mpr ⟨rfl, rfl, rfl⟩⟩

lemma shadOptBlock_events (va : Bool) (gs : List String) :
    ∀ e ∈ shadOptBlock va gs,
      is_post_backward e = false ∧ is_abort_init e = false
        ∧ is_abort_assert e = false := by
  induction gs with
  | nil => intro e he; cases he
  | cons g rest ih =>
      intro e he
      unfold shadOptBlock at he
      rcases List.mem_cons.mp he with rfl | he
      · cases va <;> exact ⟨rfl, rfl, rfl⟩
      · rcases List.mem_cons.mp he with rfl | he
        · exact ⟨rfl, rfl, rfl⟩
        · exact ih e he

lemma shadBlock_events (cfg : Config) :
    ∀ e ∈ shadBlock cfg,
      is_post_backward e = false ∧ is_abort_init e = false
        ∧ is_abort_assert e = false := by
  unfold shadBlock
  exact forall_mem_ite_nil (shadOptBlock_events cfg.visible_adam (paramNames true))

lemma schedBlock_events (cfg : Config) :
    ∀ e ∈ schedBlock cfg,
      is_post_backward e = false ∧ is_abort_init e = false
        ∧ is_abort_assert e = false := by
  unfold schedBlock
  refine List.forall_mem_cons.mpr ⟨⟨rfl, rfl, rfl⟩, ?_⟩
  exact forall_mem_ite_nil (List.forall_mem_singleton.mpr ⟨rfl, rfl, rfl⟩)

lemma postPrimaryBlock_events (cfg : Config) (meansLr0 gamma : ℝ) (step : ℕ) :
    ∀ e ∈ postPrimaryBlock cfg meansLr0 gamma step,
      is_opt_or_sched e = false ∧ is_abort_init e = false
        ∧ is_abort_assert e = false := by
  intro e he
  unfold postPrimaryBlock at he
  split at he <;> (obtain rfl := List.mem_singleton.mp he; exact ⟨rfl, rfl, rfl⟩)

lemma postShadBlock_events (cfg : Config) (meansLr0 gamma : ℝ) (step : ℕ) :
    ∀ e ∈ postShadBlock cfg meansLr0 gamma step,
      is_opt_or_sched e = false ∧ is_abort_init e = false
        ∧ is_abort_assert e = false := by
  intro e he
  unfold postShadBlock at he
  split at he
  · split at he <;> (obtain rfl := List.mem_singleton.mp he; exact ⟨rfl, rfl, rfl⟩)
  · cases he

lemma tailBlock_events (cfg : Config) (step : ℕ) :
    ∀ e ∈ tailBlock cfg step,
      is_opt_or_sched e = false ∧ is_abort_init e = false
        ∧ is_abort_assert e = false := by
  unfold tailBlock
  refine List.forall_mem_append.mpr ⟨forall_mem_ite_nil ?_, forall_mem_ite_nil ?_⟩
  · exact List.forall_mem_cons.mpr ⟨⟨rfl, rfl, rfl⟩,
      List.forall_mem_singleton.mpr ⟨rfl, rfl, rfl⟩⟩
  · exact List.forall_mem_singleton.mpr ⟨rfl, rfl, rfl⟩

lemma step_body_no_abort (cfg : Config) (meansLr0 gamma : ℝ) (step : ℕ) :
    ∀ e ∈ step_body cfg meansLr0 gamma step,
      is_abort_init e = false ∧ is_abort_assert e = false := by
  unfold step_body
  intro e he
  rcases List.mem_append.mp he with h | h
  · rcases List.mem_append.mp h with h | h
    · rcases List.mem_append.mp h with h | h
      · rcases List.mem_append.mp h with h | h
        · rcases List.mem_append.mp h with h | h
          · rcases List.mem_append.mp h with h | h
            · rcases List.mem_append.mp h with h | h
              · rcases List.mem_append.mp h with h | h
                · exact (sparseConvBlock_events cfg e h).2
                · exact (optBlock_events cfg.visible_adam (paramNames false) e h).2
              · exact (appBlock_events cfg e h).2
            · exact (bilBlock_events cfg e h).2
          · exact (shadBlock_events cfg e h).2
        · exact (schedBlock_events cfg e h).2
      · exact (postPrimaryBlock_events cfg meansLr0 gamma step e h).2
    · exact (postShadBlock_events cfg meansLr0 gamma step e h).2
  · exact (tailBlock_events cfg step e h).2

lemma step_trace_no_abort_init (cfg : Config) (meansLr0 gamma : ℝ) (step : ℕ) :
    ∀ e ∈ step_trace cfg meansLr0 gamma step, is_abort_init e = false := by
  intro e he
  unfold step_trace at he
  rcases List.mem_append.mp he with h | h
  · exact (step_head_events cfg step e h).2.1
  · split at h
    · obtain rfl := List.mem_singleton.mp h
      rfl
    · exact (step_body_no_abort cfg meansLr0 gamma step e h).1

lemma step_trace_no_abort_assert (cfg : Config) (meansLr0 gamma : ℝ) (step : ℕ)
    (hcond : (cfg.sparse_grad && !cfg.packed) = false) :
    ∀ e ∈ step_trace cfg meansLr0 gamma step, is_abort_assert e = false := by
  intro e he
  unfold step_trace at he
  rw [hcond] at he
  simp only [Bool.false_eq_true, if_false] at he
  rcases List.mem_append.mp he with h | h
  · exact (step_head_events cfg step e h).2.2
  · exact (step_body_no_abort cfg meansLr0 gamma step e h).2

lemma zeroGrad_mem_optBlock (va : Bool) (g : String) (gs : List String)
    (hg : g ∈ gs) : Event.zeroGrad g ∈ optBlock va gs := by
  induction gs with
  | nil => cases hg
  | cons a rest ih =>
      unfold optBlock
      rcases List.mem_cons.mp hg with rfl | h
      · exact List.mem_cons_of_mem _ (List.mem_cons_self _ _)
      · exact List.mem_cons_of_mem _ (List.mem_cons_of_mem _ (ih h))

lemma shadOptStep_mem_shadOptBlock (g : String) (gs : List String)
    (hg : g ∈ gs) : Event.shadOptStep g ∈ shadOptBlock false gs := by
  induction gs with
  | nil => cases hg
  | cons a rest ih =>
      unfold shadOptBlock
      rcases List.mem_cons.mp hg with rfl | h
      · exact List.mem_cons_self _ _
      · exact List.mem_cons_of_mem _ (List.mem_cons_of_mem _ (ih h))

lemma backward_mem_step_head (cfg : Config) (step : ℕ) :
    Event.backward ∈ step_head cfg step := by
  unfold step_head
  exact List.mem_append_left _ (List.mem_append_right _ (List.mem_cons_self _ _))

lemma mem_step_body_of_mem_shadBlock (cfg : Config) (meansLr0 gamma : ℝ)
    (step : ℕ) (e : Event) (he : e ∈ shadBlock cfg) :
    e ∈ step_body cfg meansLr0 gamma step := by
  unfold step_body
  exact List.mem_append_left _ (List.mem_append_left _ (List.mem_append_left _
    (List.mem_append_left _ (List.mem_append_right _ he))))

lemma mem_step_trace_of_mem_body (cfg : Config) (meansLr0 gamma : ℝ) (step : ℕ)
    (e : Event) (hcond : (cfg.sparse_grad && !cfg.packed) = false)
    (he : e ∈ step_body cfg meansLr0 gamma step) :
    e ∈ step_trace cfg meansLr0 gamma step := by
  unfold step_trace
  rw [hcond]
  simp only [Bool.false_eq_true, if_false]
  exact List.mem_append_right _ he

/-! ## Concrete configurations used by witnesses -/

/-- The source default configuration (train.py lines 40-152). -/
def cfgBase : Config := {}

/-- Default configuration with sparse gradients enabled but packed mode off. -/
def cfgSparse : Config := { sparse_grad := true, packed := false }

/-! ## Claim theorems -/

/-- C2: the claim says the visibility mask passed to each population optimizer
step is computed from that same population screen radii; in the code the mask
handed to the shading optimizers is the one computed from the albedo info, so
with albedo radii all positive and shading radii all zero the shading
optimizers still receive a mask marking the primitive visible, while the mask
the claim prescribes (from the shading radii) marks it invisible. -/
theorem C2_shading_mask_from_albedo_radii :
    shading_step_mask false 1 1 2 [] (fun _ _ _ => 1) [] (fun _ _ _ => 0) 0 = true
    ∧ visibility_mask_unpacked 1 1 2 (fun _ _ _ => 0) 0 = false
    ∧ (∀ packed : Bool, ∀ C N nd : ℕ,
        ∀ aids : List (Fin N), ∀ ar : Fin C → Fin N → Fin nd → Int,
        ∀ sids : List (Fin N), ∀ sr : Fin C → Fin N → Fin nd → Int,
        shading_step_mask packed C N nd aids ar sids sr
          = train_visibility_mask packed C N nd aids ar) := by
  refine ⟨by decide, by decide, ?_⟩
  intro packed C N nd aids ar sids sr
  rfl

/-- C3 counterexample: with shading enabled (use_shading = true) the saved
record contains no entry whose value is the shading population parameter set,
refuting that every active population parameter set is stored. -/
theorem C3_checkpoint_counterexample :
    CkptValue.params (paramNames true) ∉
      (checkpoint_data 7 true true).map (fun kv => kv.2) := by decide

/-- C3 amended: every checkpoint record contains the current step index and
the albedo population full set of named parameter arrays keyed by group name,
plus the appearance module parameters when app_opt is set; the shading
population parameter arrays are never part of the record, even when shading
is enabled. -/
theorem C3_checkpoint_amended (stepIdx : Int) (app_opt use_shading : Bool) :
    ("step", CkptValue.stepIndex stepIdx) ∈ checkpoint_data stepIdx app_opt use_shading
    ∧ ("splats", CkptValue.params (paramNames false)) ∈
        checkpoint_data stepIdx app_opt use_shading
    ∧ (app_opt = true → ("app_module", CkptValue.appParams) ∈
        checkpoint_data stepIdx app_opt use_shading)
    ∧ ∀ kv ∈ checkpoint_data stepIdx app_opt use_shading,
        kv.2 ≠ CkptValue.params (paramNames true) := by
  refine ⟨?_, ?_, ?_, ?_⟩
  · exact List.mem_append_left _ (List.mem_cons_self _ _)
  · exact List.mem_append_left _ (List.mem_cons_of_mem _ (List.mem_cons_self _ _))
  · intro h
    subst h
    exact List.mem_append_right _ (List.mem_cons_self _ _)
  · intro kv hkv
    unfold checkpoint_data at hkv
    rcases List.mem_append.mp hkv with h | h
    · rcases List.mem_cons.mp h with rfl | h
      · simp
      · rcases List.mem_cons.mp h with rfl | h
        · decide
        · cases h
    · split at h
      · obtain rfl := List.mem_singleton.mp h
        decide
      · cases h

/-- Witness for C3 amended, at step 7 with app_opt and use_shading enabled. -/
theorem C3_checkpoint_amended_witness :
    ("app_module", CkptValue.appParams) ∈ checkpoint_data 7 true true :=
  (C3_checkpoint_amended 7 true true).2.2.1 rfl

/-- C4: the render path never applies the anisotropic coupling: the normalized
time deltas of every rasterization call are the raw coordinate-wise deltas
divided by exp(logTimeScale); nevertheless the time_anisos group exists for
the shading population, has its own optimizer, and its optimizer step runs
every iteration; the disabled Cholesky coupling would have produced a
different delta at a concrete input. -/
theorem C4_isotropic_render_path (cfg : Config) (meansLr0 gamma : ℝ) (step : ℕ)
    (d : ℕ) (μ s t : Fin d → ℝ)
    (hsh : cfg.use_shading = true) (hva : cfg.visible_adam = false)
    (hsp : cfg.sparse_grad = false ∨ cfg.packed = true) :
    (∀ j, code_norm_delta d μ s t j = (t j - μ j) / Real.exp (s j))
    ∧ ("time_anisos" ∈ paramNames true ∧ "time_anisos" ∈ optimizerNames true)
    ∧ Event.shadOptStep ("time_anisos") ∈ step_trace cfg meansLr0 gamma step
    ∧ disabled_aniso_delta 2 (fun _ _ => 1) (fun _ => 0) (fun _ => 1) 0
        ≠ code_time_anisotropic 2 (fun _ => 0) (fun _ => 1) 0 := by
  have hcond : (cfg.sparse_grad && !cfg.packed) = false := by
    rcases hsp with h | h <;> simp [h]
  refine ⟨fun j => rfl, ⟨by decide, by decide⟩, ?_, ?_⟩
  · refine mem_step_trace_of_mem_body cfg meansLr0 gamma step _ hcond
      (mem_step_body_of_mem_shadBlock cfg meansLr0 gamma step _ ?_)
    unfold shadBlock
    rw [hsh, hva]
    simp only [if_true]
    exact shadOptStep_mem_shadOptBlock _ (paramNames true) (by decide)
  · unfold disabled_aniso_delta splat_cholesky code_time_anisotropic code_time_delta
    rw [Fin.sum_univ_two]
    norm_num

/-- Witness for C4 on the default configuration. -/
theorem C4_isotropic_render_path_witness :
    cfgBase.use_shading = true ∧ cfgBase.visible_adam = false
    ∧ Event.shadOptStep ("time_anisos") ∈ step_trace cfgBase 1 1 0 :=
  ⟨rfl, rfl, (C4_isotropic_render_path cfgBase 1 1 0 1 (fun _ => 0) (fun _ => 0)
    (fun _ => 0) rfl rfl (Or.inl rfl)).2.2.1⟩

/-- C5: on every training step of the MCMC variant, step_post_backward is
invoked after the per-group optimizer steps, the gradient zeroing, and the
advance of every learning-rate schedule, and its lr argument is the means
schedule value after step+1 advances, exp_lr meansLr0 gamma (step+1). -/
theorem C5_mcmc_post_backward_order (cfg : Config) (meansLr0 gamma : ℝ)
    (step : ℕ) (hstrat : cfg.strategy = Strategy.mcmcStrategy)
    (hsp : cfg.sparse_grad = false ∨ cfg.packed = true) :
    ∃ pre post,
      step_trace cfg meansLr0 gamma step
          = pre ++ Event.postBackwardMCMC (exp_lr meansLr0 gamma (step + 1)) :: post
        ∧ Event.schedStep 0 ∈ pre
        ∧ Event.zeroGrad ("means") ∈ pre
        ∧ (∀ e ∈ pre, is_post_backward e = false)
        ∧ (∀ e ∈ post, is_opt_or_sched e = false) := by
  have hcond : (cfg.sparse_grad && !cfg.packed) = false := by
    rcases hsp with h | h <;> simp [h]
  refine ⟨step_head cfg step ++ (sparseConvBlock cfg
      ++ (optBlock cfg.visible_adam (paramNames false)
      ++ (appBlock cfg ++ (bilBlock cfg ++ (shadBlock cfg ++ schedBlock cfg))))),
    postShadBlock cfg meansLr0 gamma step ++ tailBlock cfg step,
    ?_, ?_, ?_, ?_, ?_⟩
  · unfold step_trace
    rw [hcond]
    simp only [Bool.false_eq_true, if_false]
    unfold step_body postPrimaryBlock
    rw [hstrat]
    simp [List.append_assoc]
  · exact List.mem_append_right _ (List.mem_append_right _ (List.mem_append_right _
      (List.mem_append_right _ (List.mem_append_right _ (List.mem_append_right _
        (List.mem_cons_self _ _))))))
  · exact List.mem_append_right _ (List.mem_append_right _ (List.mem_append_left _
      (zeroGrad_mem_optBlock cfg.visible_adam ("means") (paramNames false) (by decide))))
  · intro e he
    rcases List.mem_append.mp he with h | h
    · exact (step_head_events cfg step e h).1
    rcases List.mem_append.mp h with h | h
    · exact (sparseConvBlock_events cfg e h).1
    rcases List.mem_append.mp h with h | h
    · exact (optBlock_events cfg.visible_adam (paramNames false) e h).1
    rcases List.mem_append.mp h with h | h
    · exact (appBlock_events cfg e h).1
    rcases List.mem_append.mp h with h | h
    · exact (bilBlock_events cfg e h).1
    rcases List.mem_append.mp h with h | h
    · exact (shadBlock_events cfg e h).1
    · exact (schedBlock_events cfg e h).1
  · intro e he
    rcases List.mem_append.mp he with h | h
    · exact (postShadBlock_events cfg meansLr0 gamma step e h).1
    · exact (tailBlock_events cfg step e h).1

/-- Witness for C5 on the default configuration (MCMC strategy) at step 0. -/
theorem C5_mcmc_post_backward_order_witness :
    cfgBase.strategy = Strategy.mcmcStrategy
    ∧ ∃ pre post,
        step_trace cfgBase 1 1 0
            = pre ++ Event.postBackwardMCMC (exp_lr 1 1 1) :: post
          ∧ Event.schedStep 0 ∈ pre
          ∧ Event.zeroGrad ("means") ∈ pre
          ∧ (∀ e ∈ pre, is_post_backward e = false)
          ∧ (∀ e ∈ post, is_opt_or_sched e = false) :=
  ⟨rfl, C5_mcmc_post_backward_order cfgBase 1 1 0 rfl (Or.inl rfl)⟩

/-- C6: the state-initialization dispatch for the shading controller branches
on the primary strategy variant, not on the shading controller own variant:
with primary MCMC and shading Default the shading controller receives the
MCMC-shaped call instead of the Default-shaped call its variant prescribes. -/
theorem C6_shading_init_dispatch_uses_primary :
    (∀ p sh : Strategy, ∀ sc : ℝ,
        shading_init_dispatch p sh sc = primary_init_dispatch p sc)
    ∧ shading_init_dispatch Strategy.mcmcStrategy Strategy.defaultStrategy 1.1
        = InitStateCall.initNoArgs
    ∧ primary_init_dispatch Strategy.defaultStrategy 1.1
        = InitStateCall.initWithSceneScale 1.1
    ∧ InitStateCall.initNoArgs ≠ InitStateCall.initWithSceneScale 1.1 := by
  refine ⟨?_, rfl, rfl, ?_⟩
  · intro p sh sc
    cases p <;> rfl
  · intro h
    exact InitStateCall.noConfusion h

/-- C7: with sparse_grad set and packed unset the run passes construction,
begins its first training step (the backward event occurs) and dies at the
sparse-conversion assertion inside that first step; with packed set the
assertion never fires in any step. -/
theorem C7_sparse_requires_packed (cfg : Config) (meansLr0 gamma : ℝ)
    (hc : cfg.compression = none) (hm : max_steps_nat cfg ≠ 0) :
    (cfg.sparse_grad = true → cfg.packed = false →
       run_trace cfg meansLr0 gamma
           = step_head cfg 0 ++ [Event.abortAssert sparse_assert_msg]
         ∧ Event.backward ∈ step_head cfg 0
         ∧ (∀ e ∈ step_head cfg 0,
             is_abort_init e = false ∧ is_abort_assert e = false))
    ∧ (cfg.packed = true →
       ∀ m, Event.abortAssert m ∉ run_trace cfg meansLr0 gamma) := by
  constructor
  · intro h1 h2
    have hcond : (cfg.sparse_grad && !cfg.packed) = true := by simp [h1, h2]
    refine ⟨?_, backward_mem_step_head cfg 0, ?_⟩
    · unfold run_trace
      rw [hc]
      unfold init_compression run_trace_aux
      rw [hcond, if_neg hm]
      unfold step_trace
      rw [hcond]
      simp
    · intro e he
      exact ⟨(step_head_events cfg 0 e he).2.1, (step_head_events cfg 0 e he).2.2⟩
  · intro hp m hmem
    have hcond : (cfg.sparse_grad && !cfg.packed) = false := by simp [hp]
    unfold run_trace at hmem
    rw [hc] at hmem
    unfold init_compression run_trace_aux at hmem
    rw [hcond] at hmem
    simp only [Bool.false_eq_true, if_false] at hmem
    obtain ⟨st, _, hmem2⟩ := List.mem_flatMap.mp hmem
    have h3 := step_trace_no_abort_assert cfg meansLr0 gamma st hcond
      (Event.abortAssert m) hmem2
    simp [is_abort_assert] at h3

/-- Witness for C7: default configuration with sparse_grad on, packed off. -/
theorem C7_sparse_requires_packed_witness :
    cfgSparse.compression = none ∧ max_steps_nat cfgSparse ≠ 0
    ∧ run_trace cfgSparse 1 1
        = step_head cfgSparse 0 ++ [Event.abortAssert sparse_assert_msg] :=
  ⟨rfl, by decide,
    ((C7_sparse_requires_packed cfgSparse 1 1 rfl (by decide)).1 rfl rfl).1⟩

/-- C8: an unrecognized compression codec name makes construction fail with
the Unknown-compression-strategy error and the run produces no training event
at all; a recognized name or a disabled codec passes the check and the run
never aborts at construction. -/
theorem C8_compression_codec_check (c : String) (hc : c ≠ "png") :
    init_compression (some c)
        = Except.error ("Unknown compression strategy: " ++ c)
    ∧ init_compression (some ("png")) = Except.ok CompressionState.pngCompression
    ∧ init_compression none = Except.ok CompressionState.noCompression
    ∧ (∀ cfg : Config, ∀ meansLr0 gamma : ℝ, cfg.compression = some c →
        run_trace cfg meansLr0 gamma
          = [Event.abortInit ("Unknown compression strategy: " ++ c)])
    ∧ (∀ cfg : Config, ∀ meansLr0 gamma : ℝ,
        cfg.compression = none ∨ cfg.compression = some ("png") →
        ∀ m, Event.abortInit m ∉ run_trace cfg meansLr0 gamma) := by
  refine ⟨?_, rfl, rfl, ?_, ?_⟩
  · simp only [init_compression]
    rw [if_neg hc]
  · intro cfg meansLr0 gamma hcomp
    unfold run_trace
    rw [hcomp]
    simp only [init_compression]
    rw [if_neg hc]
    rfl
  · intro cfg meansLr0 gamma hcomp m hmem
    have haux : ∀ x : CompressionState,
        Event.abortInit m ∉ run_trace_aux cfg meansLr0 gamma (Except.ok x) := by
      intro x hmem2
      simp only [run_trace_aux] at hmem2
      split at hmem2
      · split at hmem2
        · cases hmem2
        · have h3 := step_trace_no_abort_init cfg meansLr0 gamma 0
            (Event.abortInit m) hmem2
          simp [is_abort_init] at h3
      · obtain ⟨st, _, hmem3⟩ := List.mem_flatMap.mp hmem2
        have h3 := step_trace_no_abort_init cfg meansLr0 gamma st
          (Event.abortInit m) hmem3
        simp [is_abort_init] at h3
    unfold run_trace at hmem
    rcases hcomp with h | h
    · rw [h] at hmem
      exact haux CompressionState.noCompression hmem
    · rw [h] at hmem
      exact haux CompressionState.pngCompression hmem

/-- Witness for C8 with the unrecognized codec name jpeg. -/
theorem C8_compression_codec_check_witness :
    ("jpeg" : String) ≠ "png"
    ∧ init_compression (some ("jpeg"))
        = Except.error ("Unknown compression strategy: " ++ "jpeg") :=
  ⟨by decide, (C8_compression_codec_check ("jpeg") (by decide)).1⟩

end TimeSplatting

end
